import Mathlib

/-!
Verification of the run-configuration and control-flow logic of
`3D-convection.py`, a Dedalus v3 driver script for 3D rotating
Rayleigh-Benard convection.

The script is straight-line module-level Python.  The definitions below are a
shallow embedding of the parts of that script that the properties under study
depend on:

* the `--Ra` validation block (lines 103-110),
* the processor-mesh resolution (lines 73-81),
* the restart geometry / first-iteration resolution (lines 88-101, 369-424),
* the temperature boundary-condition equation strings (lines 307-334),
* the Currie zoned-cosine heating profile (lines 216-233),
* the main stepping loop, its exception handlers and the `finally` cleanup
  block (lines 588-629).

Machine floats are modelled as exact rationals or reals, with NaN/inf carried
as explicit tags where the script tests for them; Python exceptions are
modelled with `Except` and explicit outcome types.
-/

/-- Python exception classes that the modelled code paths can raise. -/
inductive PyExc where
  | typeError
  | valueError
  | nameError
  | zeroDivisionError
deriving DecidableEq, Repr

/-- True for the characters 0-9. -/
def isDigitC (c : Char) : Bool := 48 ≤ c.toNat && c.toNat ≤ 57

/-- Accumulate a decimal digit string into a natural number. -/
def digitsToNat : List Char → Nat → Nat
  | [], acc => acc
  | c :: cs, acc => digitsToNat cs (acc * 10 + (c.toNat - 48))

/-- Consume an optional leading sign; returns (isNegative, rest). -/
def parseSign : List Char → Bool × List Char
  | '+' :: cs => (false, cs)
  | '-' :: cs => (true, cs)
  | cs => (false, cs)

/-- Parse the exponent part of a float literal (after the `e`/`E`),
applied to an already-parsed mantissa. -/
def parseExpPart (m : ℚ) (cs : List Char) : Option ℚ :=
  let (neg, cs1) := parseSign cs
  let ds := cs1.takeWhile isDigitC
  let rest := cs1.dropWhile isDigitC
  if ds.isEmpty || !rest.isEmpty then none
  else
    let e := digitsToNat ds 0
    some (if neg then m / (10 : ℚ) ^ e else m * (10 : ℚ) ^ e)

/-- Parse a Python float literal from a character list:
optional sign, digits with an optional fractional part, optional exponent.
`none` models `float(s)` raising `ValueError`.  (The special names
`inf`/`nan` and embedded whitespace or underscores, which none of the
studied inputs use, are outside the model and parse as `none`.) -/
def pyFloatCore (cs : List Char) : Option ℚ :=
  let (neg, cs1) := parseSign cs
  let ip := cs1.takeWhile isDigitC
  let cs2 := cs1.dropWhile isDigitC
  let (fp, cs3) :=
    match cs2 with
    | '.' :: rest => (rest.takeWhile isDigitC, rest.dropWhile isDigitC)
    | _ => ([], cs2)
  if ip.isEmpty && fp.isEmpty then none
  else
    let mantissa : ℚ :=
      (digitsToNat ip 0 : ℚ) + (digitsToNat fp 0 : ℚ) / (10 : ℚ) ^ fp.length
    let signed := if neg then -mantissa else mantissa
    match cs3 with
    | [] => some signed
    | 'e' :: rest => parseExpPart signed rest
    | 'E' :: rest => parseExpPart signed rest
    | _ => none

/-- Model of Python `float(s)` on a string argument. -/
def pyFloat (s : String) : Option ℚ := pyFloatCore s.data

/-- Outcome of the Ra validation block (script lines 103-106):

    try:
        Ra = float(args["--Ra"])
    except ValueError:
        print("Must provide a valid Ra value")

`float(None)` (option omitted) raises `TypeError`, which the
`except ValueError` clause does not catch, so it propagates and aborts the
script inside the validation block.  A non-numeric string raises
`ValueError`, which is caught: a message is printed and execution continues
with the name `Ra` left unassigned. -/
inductive RaRes where
  | abortTypeError
  | continueUnbound
  | bound (v : ℚ)
deriving DecidableEq, Repr

/-- The Ra validation block, on the raw `--Ra` option value
(`none` when the option is omitted, since docopt gives it no default). -/
def resolveRa : Option String → RaRes
  | none => RaRes.abortTypeError
  | some s =>
    match pyFloat s with
    | none => RaRes.continueUnbound
    | some v => RaRes.bound v

/-- The first use of the name `Ra` after the validation block
(script line 110, `logger.info` of the convective Rossby number).
If the validation block aborted, the TypeError has already propagated;
if it swallowed a ValueError, referencing `Ra` here raises `NameError`. -/
def raFirstUse : RaRes → Except PyExc ℚ
  | RaRes.abortTypeError => Except.error PyExc.typeError
  | RaRes.continueUnbound => Except.error PyExc.nameError
  | RaRes.bound v => Except.ok v

/-- Whether execution gets past the Ra handling to the field declarations
(script line 162 onwards); field and equation construction is only reached
when `Ra` resolved to a numeric value. -/
def reachesFieldConstruction (ra : Option String) : Bool :=
  match raFirstUse (resolveRa ra) with
  | Except.ok _ => true
  | Except.error _ => false

/-- Fuel-driven floor of the base-2 logarithm (the fuel argument only makes
the recursion structural; called with fuel = n it never runs out). -/
def log2floorAux : ℕ → ℕ → ℕ
  | 0, _ => 0
  | fuel + 1, n => if 2 ≤ n then log2floorAux fuel (n / 2) + 1 else 0

/-- Floor of the base-2 logarithm of a natural number (0 for 0 and 1). -/
def log2floor (n : ℕ) : ℕ := log2floorAux n n

/-- Whether `np.log2(ncpu) == int(np.log2(ncpu))` (script line 79),
i.e. whether the worker count is an exact power of two.  (Float `log2` is
exact on powers of two and bounded away from integers on other MPI-scale
counts, so the integrality test coincides with integer power-of-two-ness.) -/
def isPow2 (n : ℕ) : Bool := n != 0 && 2 ^ log2floor n == n

/-- The auto-derived near-square mesh
`[int(2 ** np.ceil(log2 / 2)), int(2 ** np.floor(log2 / 2))]`
(script line 80), for `log2 = log2floor ncpu` an exact integer. -/
def autoMesh (ncpu : ℕ) : ℤ × ℤ :=
  (2 ^ ((log2floor ncpu + 1) / 2), 2 ^ (log2floor ncpu / 2))

/-- Mesh resolution (script lines 73-81): the `--mesh` option is parsed
first, but the power-of-two branch then assigns `mesh` unconditionally,
with no `mesh is None` guard. -/
def resolveMesh (meshArg : Option (ℤ × ℤ)) (ncpu : ℕ) : Option (ℤ × ℤ) :=
  if isPow2 ncpu then some (autoMesh ncpu) else meshArg

/-- Geometry record persisted in `run_params/runparams.json`
(the fields read back on restart, script lines 93-96). -/
structure InParams where
  Ny : ℤ
  Nz : ℤ
  Ly : ℚ
  Lz : ℚ
deriving DecidableEq, Repr

/-- Geometry-related CLI flags (`--Ly`, `--Lz`, `--Ny`, `--Nz`). -/
structure CliGeom where
  Ly : ℚ
  Lz : ℚ
  Ny : ℤ
  Nz : ℤ
deriving DecidableEq, Repr

/-- The resolved geometry the run is built with. -/
structure Geometry where
  Ny : ℤ
  Nz : ℤ
  Ly : ℚ
  Lz : ℚ
deriving DecidableEq, Repr

/-- Geometry resolution (script lines 88-101): with `--input` given, all
four values come from the persisted JSON record and the CLI geometry flags
are never read; otherwise they come from the CLI flags. -/
def resolveGeometry : Option InParams → CliGeom → Geometry
  | some p, _ => ⟨p.Ny, p.Nz, p.Ly, p.Lz⟩
  | none, c => ⟨c.Ny, c.Nz, c.Ly, c.Lz⟩

/-- First-iteration resolution (script lines 369-374 and 422):
on restart `solver.load_state` restores the solver's iteration counter from
the snapshot (library contract: the loaded state includes the stored
iteration count) and `first_iter = solver.iteration`; on a fresh start
`first_iter = 0`.  The argument is the iteration stored in the loaded
snapshot, `none` for a fresh start. -/
def resolveFirstIter : Option ℕ → ℕ
  | some it => it
  | none => 0

/-- Top temperature boundary condition equation string submitted to the
solver (script lines 308-320); `Except.error` models the `raise ValueError`
branch. -/
def topTempEquation (top : String) : Except String String :=
  if top = "insulating" then Except.ok "Tz(z=Lz) = 0"
  else if top = "vanishing" then Except.ok "Temp(z=Lz) = 0"
  else if top = "fixed_flux" then Except.ok "Tz(z=Lz) = -F"
  else Except.error "Invalid top boundary condition"

/-- Bottom temperature boundary condition equation string submitted to the
solver (script lines 322-334).  Note the `vanishing` branch as written in
the source: it references the name `Tempk`. -/
def bottomTempEquation (bottom : String) : Except String String :=
  if bottom = "insulating" then Except.ok "Tz(z=0) = 0"
  else if bottom = "vanishing" then Except.ok "Tempk(z=0) = 0"
  else if bottom = "fixed_flux" then Except.ok "Tz(z=0) = -F"
  else Except.error "Invalid bottom boundary condition"

/-- The leading identifier of an equation string (the name the equation
constrains, as resolved by the equation parser in the problem namespace). -/
def eqnHead (s : String) : String :=
  String.mk (s.data.takeWhile (fun c => c.isAlphanum || c = '_'))

/-- All module-level names assigned anywhere in the script (including
imports and loop-local assignments), i.e. the names that can appear in the
`namespace=locals()` passed to the problem: the equation parser can only
resolve identifiers from this set. -/
def scriptNames : List String :=
  ["np", "d3", "logging", "os", "pathlib", "glob", "docopt", "json",
   "datetime", "argv", "MPI", "plt", "ncpu", "logger", "NaNFlowError",
   "argcheck", "exit_code", "args", "mesh", "log2", "outpath",
   "restart_path", "f", "inparams", "Ny", "Nz", "Ly", "Lz", "Ra", "Pr",
   "Ta", "snapshot_iter", "slices_iter", "horiz_iter", "scalar_iter",
   "heat_type", "slip_type", "parallel", "dealias", "dtype", "timestepper",
   "stop_sim_time", "stop_wall_time", "stop_iteration", "max_timestep",
   "coords", "dist", "xbasis", "ybasis", "zbasis", "x", "y", "z",
   "all_bases", "hor_bases", "u", "p", "Temp", "tau_u1", "tau_u2",
   "tau_T3", "tau_T4", "tau_p", "x_hat", "y_hat", "z_hat", "lift_basis",
   "lift", "uz", "Tz", "u_x", "u_y", "u_z", "dzu_y", "dzu_x", "f_cond",
   "f_conv", "g_operator", "h_operator", "F", "Tah", "theta_deg", "theta",
   "omega", "heating_width", "H", "Delta", "heat", "heat_func",
   "cool_func", "l", "beta", "a", "fig", "ax", "line", "problem",
   "boundary_conditions", "solver", "restart_file", "write", "last_dt",
   "dt", "first_iter", "fh_mode", "low_temp", "mid_temp", "high_temp",
   "run_params", "run_file", "file", "today", "snapshots", "slices",
   "horiz_aves", "scalars", "CFL", "flow", "timestep", "max_Re",
   "total_iterations", "snap_writes", "slice_writes", "horiz_writes",
   "scalar_writes"]

/-- A Python float value as tested by `np.isnan` / `np.isinf`:
either finite (modelled exactly) or one of the non-finite tags. -/
inductive PyVal where
  | finite (q : ℚ)
  | nan
  | inf
  | ninf
deriving DecidableEq, Repr

/-- The combined divergence test `np.isnan(v) or np.isinf(v)`
(script line 601). -/
def isnanOrIsinf : PyVal → Bool
  | PyVal.finite _ => false
  | _ => true

/-- The loop-visible state entering an iteration of the main loop:
the solver's iteration counter and the binding of the name `max_Re`
(`none` = not yet assigned in this process). -/
structure LoopSt where
  iteration : ℕ
  maxRe : Option PyVal
deriving DecidableEq, Repr

/-- Exceptions the body of the main loop can raise at the divergence check:
`NameError` when `max_Re` is referenced before assignment, or the script's
`NaNFlowError` when the check fires. -/
inductive StepErr where
  | nameError
  | nanFlow
deriving DecidableEq, Repr

/-- One pass of the main loop body (script lines 592-602): the solver steps
(iteration increments), `max_Re` is reassigned from the flow diagnostic only
when `(solver.iteration - 1) % 10 == 0`, and then the divergence check reads
`max_Re` — raising `NameError` if it was never assigned, `NaNFlowError` if
it is NaN or infinite.  `newRe` is the value `flow.max("Re")` would return
this iteration. -/
def loopIter (st : LoopSt) (newRe : PyVal) : Except StepErr LoopSt :=
  let it := st.iteration + 1
  let mre := if (it - 1) % 10 = 0 then some newRe else st.maxRe
  match mre with
  | none => Except.error StepErr.nameError
  | some v =>
    if isnanOrIsinf v then Except.error StepErr.nanFlow
    else Except.ok ⟨it, some v⟩

/-- Terminal state of the main `try` block (script lines 590-611):
normal completion of the while loop, or the exception class that ended it
as classified by the three `except` clauses. -/
inductive LoopResult where
  | completed
  | interrupted
  | nanFlow
  | otherError
deriving DecidableEq, Repr

/-- The `exit_code` variable after the `except` clauses
(script lines 70 and 603-611). -/
def exitCodeOf : LoopResult → ℤ
  | LoopResult.completed => 0
  | LoopResult.interrupted => -1
  | LoopResult.nanFlow => -50
  | LoopResult.otherError => -10

/-- Which `except` clause catches a loop-body exception: `NaNFlowError` has
its own clause; `NameError` falls to the generic `except Exception`. -/
def loopResultOfErr : StepErr → LoopResult
  | StepErr.nanFlow => LoopResult.nanFlow
  | StepErr.nameError => LoopResult.otherError

/-- How the process terminates: an explicit `exit(code)` call, or an
uncaught exception (interpreter traceback, exit status 1, never equal to
any `exit(code)` outcome). -/
inductive RunOutcome where
  | exited (code : ℤ)
  | uncaughtException (e : PyExc)
deriving DecidableEq, Repr

/-- True exactly when the outcome is an explicit `exit(code)` call. -/
def isExitCall : RunOutcome → Bool
  | RunOutcome.exited _ => true
  | RunOutcome.uncaughtException _ => false

/-- Whether the name `outpath` was assigned (script lines 83-84: only when
`--test` is absent). -/
def outpathAssigned (testMode : Bool) : Bool := !testMode

/-- The `finally` cleanup block (script lines 612-629), given whether the
names `timestep` (assigned only once a loop iteration has started) and
`outpath` are bound.  Line 616 `solver.evaluate_handlers(dt=timestep)`
raises `NameError` if `timestep` is unbound; otherwise line 617
`solver.log_stats()` runs (first component: statistics were logged); then
line 628 logs `outpath`, raising `NameError` if it is unbound; only then is
`exit(exit_code)` reached. -/
def finallyBlock (testMode timestepAssigned : Bool) (code : ℤ) :
    Bool × RunOutcome :=
  if !timestepAssigned then (false, RunOutcome.uncaughtException PyExc.nameError)
  else if !(outpathAssigned testMode) then
    (true, RunOutcome.uncaughtException PyExc.nameError)
  else (true, RunOutcome.exited code)

/-- End-to-end termination behaviour of the script past solver construction
(script lines 369-382, 588-629), in program order: the restart read-failure
`exit(-10)` (lines 377-382, when `--input` is given but the snapshots
directory is missing), the `--kill` early `exit(-99)` (lines 588-589, before
the `try`), and otherwise the `try`/`except`/`finally` around the main loop.
Returns (statistics were logged, process outcome). -/
def runTail (restartGiven snapshotsExist killFlag testMode : Bool)
    (loop : LoopResult) (timestepAssigned : Bool) : Bool × RunOutcome :=
  if restartGiven && !snapshotsExist then (false, RunOutcome.exited (-10))
  else if killFlag then (false, RunOutcome.exited (-99))
  else finallyBlock testMode timestepAssigned (exitCodeOf loop)

noncomputable section

open Real Classical

/-- The constant flux normalisation `F = 1` (script line 196). -/
def Fconst : ℝ := 1

/-- The conduction-zone height `H = Lz / (1 + 2 * heating_width)`
(script line 218). -/
def heatH (Lz heating_width : ℝ) : ℝ := Lz / (1 + 2 * heating_width)

/-- The heating/cooling layer width `Delta = heating_width * H`
(script line 220). -/
def heatDelta (Lz heating_width : ℝ) : ℝ :=
  heating_width * heatH Lz heating_width

/-- The heating branch (script lines 224-226):
`(F / Delta) * (1 + cos(2 pi (z - Delta/2) / Delta))`. -/
def heat_func (Delta z : ℝ) : ℝ :=
  (Fconst / Delta) * (1 + Real.cos ((2 * Real.pi * (z - Delta / 2)) / Delta))

/-- The cooling branch (script lines 227-229):
`(F / Delta) * (-1 - cos(2 pi (z - Lz + Delta/2) / Delta))`. -/
def cool_func (Lz Delta z : ℝ) : ℝ :=
  (Fconst / Delta) * (-1 - Real.cos ((2 * Real.pi * (z - Lz + Delta / 2)) / Delta))

/-- The pointwise value of
`np.piecewise(z, [z <= Delta, z >= Lz - Delta], [heat_func, cool_func, 0])`
(script lines 231-233).  `np.piecewise` assigns in list order, so where both
conditions hold the later one (`cool_func`) wins; points matching neither
keep the fill value 0. -/
def currieHeatAt (Lz Delta z : ℝ) : ℝ :=
  if Lz - Delta ≤ z then cool_func Lz Delta z
  else if z ≤ Delta then heat_func Delta z
  else 0

/-- The full Currie heating-profile construction (script lines 216-233) on
the local vertical grid points `zs`, with its error behaviour:
`np.piecewise` invokes a callable entry only when its selection is non-empty
(`vals = x[cond]; if vals.size > 0: ...` in `numpy.lib.function_base`), and
each invocation of `heat_func`/`cool_func` evaluates `F / Delta` first,
which raises `ZeroDivisionError` when `Delta = 0`. -/
def currieHeatProfile (heating_width Lz : ℝ) (zs : List ℝ) :
    Except PyExc (List ℝ) :=
  let Delta := heatDelta Lz heating_width
  if (∃ z ∈ zs, z ≤ Delta) ∧ Delta = 0 then
    Except.error PyExc.zeroDivisionError
  else if (∃ z ∈ zs, Lz - Delta ≤ z) ∧ Delta = 0 then
    Except.error PyExc.zeroDivisionError
  else Except.ok (zs.map (currieHeatAt Lz Delta))

end

/-- C1, counterexample.  With `--Ra=cheese` (a non-numeric value) the
validation block does not fail: the `ValueError` from `float` is caught and
swallowed, execution continues with `Ra` unbound, and the abort only happens
afterwards as a `NameError` at the first use of `Ra` (line 110) — not as a
configuration error raised by the validation itself, and not immediately. -/
theorem C1_counterexample :
    pyFloat "cheese" = none ∧
    resolveRa (some "cheese") = RaRes.continueUnbound ∧
    raFirstUse (resolveRa (some "cheese")) = Except.error PyExc.nameError := by
  refine ⟨by decide, ?_, ?_⟩ <;> rfl

/-- C1, amended.  For every invocation without a valid Ra the script still
aborts before any field or equation is constructed, but not via a
configuration error raised by the validation block: an omitted `--Ra`
aborts inside the validation block with an uncaught `TypeError` (the
`except ValueError` clause does not catch it), while a non-numeric `--Ra`
has its `ValueError` caught and merely printed, the run aborting only at
the first later use of the unbound name `Ra` with a `NameError`. -/
theorem C1_amended (ra : Option String)
    (h : ∀ s, ra = some s → pyFloat s = none) :
    reachesFieldConstruction ra = false ∧
    (ra = none →
      resolveRa ra = RaRes.abortTypeError ∧
      raFirstUse (resolveRa ra) = Except.error PyExc.typeError) ∧
    (∀ s, ra = some s →
      resolveRa ra = RaRes.continueUnbound ∧
      raFirstUse (resolveRa ra) = Except.error PyExc.nameError) := by
  cases ra with
  | none =>
    refine ⟨rfl, fun _ => ⟨rfl, rfl⟩, ?_⟩
    intro s hs
    exact absurd hs (by simp)
  | some s =>
    have hs : pyFloat s = none := h s rfl
    refine ⟨?_, ?_, ?_⟩
    · simp [reachesFieldConstruction, resolveRa, raFirstUse, hs]
    · intro hn
      exact absurd hn (by simp)
    · intro t ht
      have hts : t = s := (Option.some.inj ht).symm
      subst hts
      constructor
      · simp [resolveRa, hs]
      · simp [resolveRa, raFirstUse, hs]

/-- C1, witness for the amended theorem at the concrete invocation
`--Ra=cheese`. -/
theorem C1_witness :
    reachesFieldConstruction (some "cheese") = false :=
  (C1_amended (some "cheese")
    (fun s hs => by cases hs; decide)).1

/-- C4: the code-level divergence behind the bottom `vanishing` boundary
condition.  The source submits the equation string `Tempk(z=0) = 0`
(line 326) whose constrained identifier `Tempk` is not any name assigned in
the script (so the equation parser, whose namespace is `locals()`, cannot
resolve it), while the analogous top condition (line 312) correctly
constrains `Temp`, the temperature field.  The claim (and the spec) state
the intended equation `Temp(z=0) = 0`. -/
theorem C4_bottom_vanishing_bug :
    bottomTempEquation "vanishing" = Except.ok "Tempk(z=0) = 0" ∧
    topTempEquation "vanishing" = Except.ok "Temp(z=Lz) = 0" ∧
    eqnHead "Tempk(z=0) = 0" = "Tempk" ∧
    eqnHead "Temp(z=Lz) = 0" = "Temp" ∧
    scriptNames.contains "Temp" = true ∧
    scriptNames.contains "Tempk" = false ∧
    bottomTempEquation "vanishing" ≠ Except.ok "Temp(z=0) = 0" := by
  refine ⟨rfl, rfl, by decide, by decide, by decide, by decide, ?_⟩
  intro h
  have h2 : "Tempk(z=0) = 0" = "Temp(z=0) = 0" := Except.ok.inj h
  exact absurd h2 (by decide)

/-- C5, counterexample.  With an explicit `--mesh=1,4` and 4 workers
(a power of two), the power-of-two branch overwrites the explicitly
configured mesh with the auto-derived square mesh `[2, 2]`: an explicitly
configured mesh is not used as configured. -/
theorem C5_counterexample :
    resolveMesh (some (1, 4)) 4 = some (2, 2) ∧ ((1, 4) : ℤ × ℤ) ≠ (2, 2) := by
  refine ⟨by decide, by decide⟩

/-- C5, amended.  The auto-derived near-square mesh is used whenever the
worker count is an exact power of two — even when `--mesh` was explicitly
given, which is then silently overridden; only for a non-power-of-two
worker count is the `--mesh` option (or, when absent, the library default
`none`) kept as configured. -/
theorem C5_amended (meshArg : Option (ℤ × ℤ)) (ncpu : ℕ) :
    (isPow2 ncpu = true → resolveMesh meshArg ncpu = some (autoMesh ncpu)) ∧
    (isPow2 ncpu = false → resolveMesh meshArg ncpu = meshArg) := by
  constructor <;> intro h <;> simp [resolveMesh, h]

/-- C5, witness for the amended theorem: 8 workers override an explicit
mesh with `[4, 2]`; 6 workers keep the explicit mesh. -/
theorem C5_witness :
    resolveMesh (some (3, 5)) 8 = some (autoMesh 8) ∧
    resolveMesh (some (3, 5)) 6 = some (3, 5) ∧
    autoMesh 8 = (4, 2) :=
  ⟨(C5_amended (some (3, 5)) 8).1 (by decide),
   (C5_amended (some (3, 5)) 6).2 (by decide), by decide⟩

/-- C6: restart round-trip.  When a restart path is given, the resolved
geometry is exactly the Ny, Nz, Ly, Lz of the persisted JSON record, for
every value of the CLI geometry flags (so conflicting CLI flags are
ignored), and the iteration counter resumes from the iteration stored in
the loaded snapshot; a fresh start begins at iteration 0. -/
theorem C6_restart_roundtrip (p : InParams) (c c2 : CliGeom) (it : ℕ) :
    resolveGeometry (some p) c = ⟨p.Ny, p.Nz, p.Ly, p.Lz⟩ ∧
    resolveGeometry (some p) c = resolveGeometry (some p) c2 ∧
    resolveFirstIter (some it) = it ∧
    resolveFirstIter none = 0 :=
  ⟨rfl, rfl, rfl, rfl⟩

/-- C2, counterexample.  A `--test` run whose stepping loop completes
normally does not exit with code 0: the `finally` cleanup reaches
`logger.info("Written to {}".format(outpath))` with `outpath` unbound
(it is only assigned when `--test` is absent), raising `NameError`, so
`exit(exit_code)` is never executed and the process dies with an
interpreter traceback instead of the documented code. -/
theorem C2_counterexample :
    runTail false true false true LoopResult.completed true =
      (true, RunOutcome.uncaughtException PyExc.nameError) ∧
    isExitCall (runTail false true false true LoopResult.completed true).2 =
      false :=
  ⟨rfl, rfl⟩

/-- C2, amended.  The `--kill` early exit (code −99) and the fatal restart
read failure (code −10) always exit as documented, since both run before
the `try`/`finally`; the loop-terminal codes — 0 normal, −1 interrupted,
−50 divergence, −10 unknown error — are produced exactly as documented for
runs that are not in `--test` mode and in which at least one loop iteration
assigned `timestep`; otherwise the cleanup block raises `NameError` before
`exit(exit_code)` is reached. -/
theorem C2_amended (loop : LoopResult) (testMode ts : Bool) :
    runTail true false false testMode loop ts =
      (false, RunOutcome.exited (-10)) ∧
    runTail false true true testMode loop ts =
      (false, RunOutcome.exited (-99)) ∧
    (testMode = false → ts = true →
      runTail false true false testMode loop ts =
        (true, RunOutcome.exited (exitCodeOf loop))) ∧
    exitCodeOf LoopResult.completed = 0 ∧
    exitCodeOf LoopResult.interrupted = -1 ∧
    exitCodeOf LoopResult.nanFlow = -50 ∧
    exitCodeOf LoopResult.otherError = -10 := by
  refine ⟨rfl, rfl, ?_, rfl, rfl, rfl, rfl⟩
  intro h1 h2
  subst h1
  subst h2
  rfl

/-- C2, witness for the amended theorem: a non-test divergence run exits
−50 with statistics logged. -/
theorem C2_witness :
    runTail false true false false LoopResult.nanFlow true =
      (true, RunOutcome.exited (-50)) :=
  (C2_amended LoopResult.nanFlow false true).2.2.1 rfl rfl

/-- C3, counterexample.  In a `--test` run, a NaN flow diagnostic still
terminates the iteration through the `NaNFlowError` path and the final
statistics are still logged (`solver.log_stats()` runs before the failing
`outpath` log line), but the process does not exit with code −50: the
cleanup raises `NameError` before `exit(exit_code)`. -/
theorem C3_counterexample :
    loopIter ⟨0, none⟩ PyVal.nan = Except.error StepErr.nanFlow ∧
    runTail false true false true LoopResult.nanFlow true =
      (true, RunOutcome.uncaughtException PyExc.nameError) ∧
    isExitCall (runTail false true false true LoopResult.nanFlow true).2 =
      false :=
  ⟨rfl, rfl, rfl⟩

/-- C3, amended.  Whenever the recomputed flow diagnostic is NaN or
infinite on a recompute iteration (previous iteration count divisible by
10), the loop body raises `NaNFlowError` within that same iteration, the
dedicated handler sets `exit_code` to −50, and — for runs not in `--test`
mode — the final statistics are logged and the process exits with code −50;
in `--test` mode the statistics are still logged but the cleanup raises
`NameError` instead of reaching `exit(-50)`. -/
theorem C3_amended (st : LoopSt) (newRe : PyVal)
    (hrec : st.iteration % 10 = 0) (hbad : isnanOrIsinf newRe = true) :
    loopIter st newRe = Except.error StepErr.nanFlow ∧
    loopResultOfErr StepErr.nanFlow = LoopResult.nanFlow ∧
    exitCodeOf LoopResult.nanFlow = -50 ∧
    runTail false true false false LoopResult.nanFlow true =
      (true, RunOutcome.exited (-50)) := by
  refine ⟨?_, rfl, rfl, rfl⟩
  unfold loopIter
  simp only [Nat.add_sub_cancel, hrec, if_pos rfl, hbad, if_true]

/-- C3, witness for the amended theorem: a restart state at iteration 10
whose diagnostic recomputes to infinity diverges within that iteration. -/
theorem C3_witness :
    loopIter ⟨10, some (PyVal.finite 2)⟩ PyVal.inf =
      Except.error StepErr.nanFlow :=
  (C3_amended ⟨10, some (PyVal.finite 2)⟩ PyVal.inf (by decide) (by decide)).1

/-- C8, counterexample.  The NameError mechanism of the claim is real, but
the claimed exit code is not universal: on a `--test` restart from a stored
iteration such as 501 the first pass raises `NameError` (as the claim
says), yet the process does not terminate with exit code −10 — the cleanup
block raises its own `NameError` before `exit(exit_code)` is reached. -/
theorem C8_counterexample :
    loopIter ⟨501, none⟩ (PyVal.finite 3) = Except.error StepErr.nameError ∧
    runTail true true false true LoopResult.otherError true =
      (true, RunOutcome.uncaughtException PyExc.nameError) ∧
    isExitCall (runTail true true false true LoopResult.otherError true).2 =
      false :=
  ⟨rfl, rfl, rfl⟩

/-- C8, amended.  For every restart whose stored iteration count is not a
multiple of 10, the first pass through the main loop skips the diagnostic
recompute (the guard `(solver.iteration - 1) % 10 == 0` is false) and the
divergence check then reads the never-assigned name `max_Re`, raising
`NameError`; the generic `except Exception` handler catches it and sets
`exit_code` to −10, and for restarts not in `--test` mode the process then
exits with code −10 instead of continuing (in `--test` mode the cleanup
raises `NameError` before `exit` is reached). -/
theorem C8_amended (I0 : ℕ) (newRe : PyVal) (h : ¬ I0 % 10 = 0) :
    loopIter ⟨I0, none⟩ newRe = Except.error StepErr.nameError ∧
    loopResultOfErr StepErr.nameError = LoopResult.otherError ∧
    runTail true true false false LoopResult.otherError true =
      (true, RunOutcome.exited (-10)) := by
  refine ⟨?_, rfl, rfl⟩
  unfold loopIter
  simp only [Nat.add_sub_cancel, h, if_neg h, if_false]

/-- C8, witness for the amended theorem at stored iteration 7. -/
theorem C8_witness :
    loopIter ⟨7, none⟩ (PyVal.finite 1) = Except.error StepErr.nameError :=
  (C8_amended 7 (PyVal.finite 1) (by decide)).1

/-- C9: in a `--test` run (without `--kill`, with an intact restart source
if any) that enters the main loop, `outpath` is never assigned, so whatever
terminal state the loop reaches, the cleanup block raises `NameError` at
the output-location log line; `exit(exit_code)` is never reached and the
process terminates through an uncaught exception rather than any `exit`
call — including on normal completion of the test run. -/
theorem C9_test_mode_no_exit (loop : LoopResult) :
    outpathAssigned true = false ∧
    runTail false true false true loop true =
      (true, RunOutcome.uncaughtException PyExc.nameError) ∧
    isExitCall (runTail false true false true loop true).2 = false :=
  ⟨rfl, rfl, rfl⟩

/-- Helper: the heating branch vanishes exactly at the zone edge
`z = Delta`, since the cosine argument there is exactly pi. -/
theorem heat_func_edge (Delta : ℝ) (h : Delta ≠ 0) :
    heat_func Delta Delta = 0 := by
  unfold heat_func
  have harg : (2 * Real.pi * (Delta - Delta / 2)) / Delta = Real.pi := by
    field_simp
    ring
  rw [harg, Real.cos_pi]
  ring

/-- Helper: the cooling branch vanishes exactly at the zone edge
`z = Lz - Delta`, since the cosine argument there is exactly minus pi. -/
theorem cool_func_edge (Lz Delta : ℝ) (h : Delta ≠ 0) :
    cool_func Lz Delta (Lz - Delta) = 0 := by
  unfold cool_func
  have harg : (2 * Real.pi * (Lz - Delta - Lz + Delta / 2)) / Delta =
      -Real.pi := by
    field_simp
    ring
  rw [harg, Real.cos_neg, Real.cos_pi]
  ring

/-- C7: for every heating_width > 0 (and positive box depth Lz), the zoned
profile uses layer width Delta = heating_width * H with
H = Lz / (1 + 2 * heating_width); the heating branch is exactly 0 at
z = Delta and the cooling branch exactly 0 at z = Lz - Delta (by the
cosine forms), and the profile is 0 throughout the middle convection zone
Delta < z < Lz - Delta. -/
theorem C7_zoned_cosine (hw Lz : ℝ) (hhw : 0 < hw) (hLz : 0 < Lz) :
    heatDelta Lz hw = hw * (Lz / (1 + 2 * hw)) ∧
    heat_func (heatDelta Lz hw) (heatDelta Lz hw) = 0 ∧
    cool_func Lz (heatDelta Lz hw) (Lz - heatDelta Lz hw) = 0 ∧
    ∀ z : ℝ, heatDelta Lz hw < z → z < Lz - heatDelta Lz hw →
      currieHeatAt Lz (heatDelta Lz hw) z = 0 := by
  have hpos : (0 : ℝ) < 1 + 2 * hw := by linarith
  have hd : 0 < heatDelta Lz hw := mul_pos hhw (div_pos hLz hpos)
  have hne : heatDelta Lz hw ≠ 0 := ne_of_gt hd
  refine ⟨rfl, heat_func_edge _ hne, cool_func_edge _ _ hne, ?_⟩
  intro z h1 h2
  unfold currieHeatAt
  rw [if_neg (not_le.mpr h2), if_neg (not_le.mpr h1)]

/-- C7, witness for the theorem at the default configuration
`--Hwidth=0.2`, `--Lz=1` (so Delta = 1/7), evaluated at the mid-zone point
z = 1/2. -/
theorem C7_witness :
    heat_func (heatDelta 1 (1 / 5)) (heatDelta 1 (1 / 5)) = 0 ∧
    cool_func 1 (heatDelta 1 (1 / 5)) (1 - heatDelta 1 (1 / 5)) = 0 ∧
    currieHeatAt 1 (heatDelta 1 (1 / 5)) (1 / 2) = 0 := by
  have h := C7_zoned_cosine (1 / 5) 1 (by norm_num) (by norm_num)
  refine ⟨h.2.1, h.2.2.1, h.2.2.2 (1 / 2) ?_ ?_⟩
  · unfold heatDelta heatH
    norm_num
  · unfold heatDelta heatH
    norm_num

/-- C10, counterexample.  With `--currie --Hwidth=0` the layer width Delta
is 0, yet no `ZeroDivisionError` is raised: on a strictly interior grid
(here the points 1/4, 1/2, 3/4 with Lz = 1) both piecewise selections
`z <= Delta` and `z >= Lz - Delta` are empty, `np.piecewise` therefore
never invokes `heat_func`/`cool_func`, `F / Delta` is never evaluated, and
the construction succeeds with the all-zero profile. -/
theorem C10_counterexample :
    currieHeatProfile 0 1 [1 / 4, 1 / 2, 3 / 4] =
      Except.ok [0, 0, 0] := by
  have hD : heatDelta 1 0 = 0 := by
    unfold heatDelta heatH
    ring
  have hc1 : ¬ ((∃ z ∈ ([1 / 4, 1 / 2, 3 / 4] : List ℝ), z ≤ heatDelta 1 0) ∧
      heatDelta 1 0 = 0) := by
    rintro ⟨⟨z, hz, hle⟩, -⟩
    rw [hD] at hle
    simp only [List.mem_cons, List.not_mem_nil, or_false] at hz
    rcases hz with rfl | rfl | rfl <;> norm_num at hle
  have hc2 : ¬ ((∃ z ∈ ([1 / 4, 1 / 2, 3 / 4] : List ℝ),
      (1 : ℝ) - heatDelta 1 0 ≤ z) ∧ heatDelta 1 0 = 0) := by
    rintro ⟨⟨z, hz, hle⟩, -⟩
    rw [hD, sub_zero] at hle
    simp only [List.mem_cons, List.not_mem_nil, or_false] at hz
    rcases hz with rfl | rfl | rfl <;> norm_num at hle
  simp only [currieHeatProfile]
  rw [if_neg hc1, if_neg hc2, hD]
  norm_num [currieHeatAt, List.map]

/-- C10, amended.  With `--currie --Hwidth=0`, Delta = 0, but constructing
the heating profile raises no error at all: `np.piecewise` invokes a branch
callable only on a non-empty selection, and on a strictly interior vertical
grid (every Chebyshev collocation point satisfies 0 < z < Lz) no point
satisfies `z <= 0` or `z >= Lz`, so `F / Delta` is never evaluated and the
profile is identically zero; the run proceeds. -/
theorem C10_amended (Lz : ℝ) (zs : List ℝ)
    (h : ∀ z ∈ zs, 0 < z ∧ z < Lz) :
    currieHeatProfile 0 Lz zs = Except.ok (zs.map (fun _ => (0 : ℝ))) := by
  have hD : heatDelta Lz 0 = 0 := by
    unfold heatDelta heatH
    ring
  have hc1 : ¬ ((∃ z ∈ zs, z ≤ heatDelta Lz 0) ∧ heatDelta Lz 0 = 0) := by
    rintro ⟨⟨z, hz, hle⟩, -⟩
    rw [hD] at hle
    exact absurd hle (not_le.mpr (h z hz).1)
  have hc2 : ¬ ((∃ z ∈ zs, Lz - heatDelta Lz 0 ≤ z) ∧
      heatDelta Lz 0 = 0) := by
    rintro ⟨⟨z, hz, hle⟩, -⟩
    rw [hD, sub_zero] at hle
    exact absurd hle (not_le.mpr (h z hz).2)
  simp only [currieHeatProfile]
  rw [if_neg hc1, if_neg hc2, hD]
  congr 1
  apply List.map_congr_left
  intro z hz
  unfold currieHeatAt
  rw [if_neg, if_neg]
  · exact not_le.mpr (h z hz).1
  · rw [sub_zero]
    exact not_le.mpr (h z hz).2

/-- C10, witness for the amended theorem on the interior grid point 1 with
Lz = 2. -/
theorem C10_witness :
    currieHeatProfile 0 2 [1] = Except.ok [0] := by
  have h := C10_amended 2 [1] (by
    intro z hz
    rw [List.mem_singleton] at hz
    subst hz
    norm_num)
  simpa using h
